import Mathlib

/-!
Verification of the conversation manager, authentication handshake, credential
cache and stream decoder of the AmarnathCJD/ChatGPT Go client.

The Go sources are shallowly embedded: each Go function that the claims touch
is translated into an executable Lean definition of the same name.  The
repository ships two variants of the stream/ask module (src/ask.go and the
unnamed sibling file, an alternate revision of the same module); where they
differ both are embedded, in namespaces AskGo (src/ask.go) and AskV0
(src/unnamed/part_000).
-/

namespace ChatGPT

/-! ## Go string primitives -/

/-- Go len(s): the number of UTF-8 bytes of a string. -/
def utf8Len (s : String) : Nat :=
  s.data.foldl (fun n c => n + c.utf8Size) 0

/-- Whether the first list is a prefix of the second (helper for substring search). -/
def listIsPre : List Char → List Char → Bool
  | [], _ => true
  | _ :: _, [] => false
  | a :: as, b :: bs => a == b && listIsPre as bs

/-- Substring search on char lists: does the needle occur in the haystack? -/
def containsAux (hay needle : List Char) : Bool :=
  match hay with
  | [] => needle.isEmpty
  | _ :: rest => listIsPre needle hay || containsAux rest needle

/-- Go strings.Contains s sub. -/
def goContains (s sub : String) : Bool :=
  containsAux s.data sub.data

/-- Splitting worker: split around non-overlapping occurrences of sep, with a
fuel bound (the input length) to keep the recursion structural and
kernel-reducible.  acc holds the current segment reversed. -/
def goSplitAux (sep : List Char) : Nat → List Char → List Char → List (List Char)
  | _, [], acc => [acc.reverse]
  | 0, cs, acc => [acc.reverse ++ cs]
  | fuel + 1, c :: rest, acc =>
      if listIsPre sep (c :: rest) then
        acc.reverse :: goSplitAux sep fuel (List.drop (sep.length - 1) rest) []
      else goSplitAux sep fuel rest (c :: acc)

/-- Go strings.Split s sep for a non-empty separator (the only way the source
uses it). -/
def goSplit (s sep : String) : List String :=
  (goSplitAux sep.data s.data.length s.data []).map String.mk

/-! ## conversations.go -/

/-- Message struct of conversations.go: a role and a content string. -/
structure Message where
  Role : String
  Content : String
  deriving DecidableEq

/-- Conversation struct of conversations.go. -/
structure Conversation where
  InitMessage : String
  LastMessage : String
  Messages : List Message
  deriving DecidableEq

/-- Conversation.addMessage: append the message and update LastMessage. -/
def Conversation.addMessage (c : Conversation) (m : Message) : Conversation :=
  { c with Messages := c.Messages ++ [m], LastMessage := m.Content }

/-- Conversation.initMessage: set InitMessage and LastMessage to the content and append. -/
def Conversation.initMessage (c : Conversation) (m : Message) : Conversation :=
  { c with InitMessage := m.Content, LastMessage := m.Content, Messages := c.Messages ++ [m] }

/-- Conversation.getTokenCount: len(InitMessage) / 4. -/
def Conversation.getTokenCount (c : Conversation) : Nat :=
  utf8Len c.InitMessage / 4

/-- Engines table of conversations.go.  In Go this is a map iterated in
unspecified order by getEngineTokenLimit; every engine name appearing in this
development matches at most one key, so the fixed order below is
observationally equivalent there. -/
def Engines : List (String × Nat) :=
  [("text-davinci-", 4000), ("gpt-3.5-", 4000), ("gpt-4-32", 32000), ("gpt-4-8", 8000)]

/-- getEngineTokenLimit of src/ask.go: first Engines key contained in the
engine name wins, default 4000. -/
def getEngineTokenLimit (engine : String) : Nat :=
  match Engines.find? (fun e => goContains engine e.1) with
  | some e => e.2
  | none => 4000

/-- Conversation.tokenizeMessage: when the token count exceeds the engine
budget, collapse Messages to the system init message and a user message
holding LastMessage. -/
def Conversation.tokenizeMessage (c : Conversation) (engine : String) : Conversation :=
  if c.getTokenCount > getEngineTokenLimit engine then
    { c with Messages := [⟨"system", c.InitMessage⟩, ⟨"user", c.LastMessage⟩] }
  else c

/-! ### Conversation histories produced by the client

The client mutates a conversation only through addMessage and through the
token-budget check of Ask (src/ask.go lines 137-142), which runs
tokenizeMessage when getTokenCount exceeds the engine budget.  ConvOp ranges
over these two mutations. -/

/-- One mutation step applied to a stored conversation. -/
inductive ConvOp where
  | add (m : Message)
  | budgetCheck (engine : String)

/-- Apply one mutation, mirroring the corresponding Go code. -/
def applyOp (c : Conversation) (op : ConvOp) : Conversation :=
  match op with
  | .add m => c.addMessage m
  | .budgetCheck engine =>
      if c.getTokenCount > getEngineTokenLimit engine then c.tokenizeMessage engine else c

/-- Apply a sequence of mutations. -/
def applyOps (c : Conversation) (ops : List ConvOp) : Conversation :=
  ops.foldl applyOp c

/-- Conversation creation as done by Ask: a fresh conversation initialised
with a message of role system carrying the client init text. -/
def mkClientConversation (initText : String) : Conversation :=
  Conversation.initMessage ⟨"", "", []⟩ ⟨"system", initText⟩

/-- The position-zero invariant: InitMessage still holds the creation text and
the first stored message is the system init message. -/
def HeadInv (initText : String) (c : Conversation) : Prop :=
  c.InitMessage = initText ∧ c.Messages.head? = some ⟨"system", initText⟩

lemma headInv_applyOp (initText : String) (c : Conversation) (op : ConvOp)
    (h : HeadInv initText c) : HeadInv initText (applyOp c op) := by
  obtain ⟨h1, h2⟩ := h
  cases op with
  | add m =>
      refine ⟨h1, ?_⟩
      cases hm : c.Messages with
      | nil => rw [hm] at h2; simp at h2
      | cons a as =>
          rw [hm] at h2
          simp only [applyOp, Conversation.addMessage, hm]
          simpa using h2
  | budgetCheck engine =>
      simp only [applyOp, Conversation.tokenizeMessage]
      by_cases hday : c.getTokenCount > getEngineTokenLimit engine
      · simp [hday, HeadInv, h1]
      · simp [hday, HeadInv, h1, h2]

lemma headInv_applyOps (initText : String) (c : Conversation) (ops : List ConvOp)
    (h : HeadInv initText c) : HeadInv initText (applyOps c ops) := by
  induction ops generalizing c with
  | nil => simpa [applyOps] using h
  | cons op rest ih =>
      have : applyOps c (op :: rest) = applyOps (applyOp c op) rest := by
        simp [applyOps]
      rw [this]
      exact ih _ (headInv_applyOp initText c op h)

/-- C5: for every conversation created by the client and every finite sequence
of appends and budget checks, the entry at position 0 of the message history
exists and is the system init message — role system, content equal to the
conversation's InitMessage — both before any windowing truncation triggers and
after it. -/
theorem system_message_pinned_at_position_zero (initText : String) (ops : List ConvOp) :
    (applyOps (mkClientConversation initText) ops).Messages.head? =
        some ⟨"system", initText⟩ ∧
      (applyOps (mkClientConversation initText) ops).InitMessage = initText := by
  have hinit : HeadInv initText (mkClientConversation initText) := by
    constructor <;> simp [mkClientConversation, Conversation.initMessage]
  obtain ⟨h1, h2⟩ := headInv_applyOps initText _ ops hinit
  exact ⟨h2, h1⟩

/-! ## The conversation-handling part of Ask (src/ask.go lines 116-147)

Ask either creates the conversation (appending only the system init message in
src/ask.go; the alternate revision in src/unnamed/part_000 additionally
appends the user prompt) or appends the user prompt to the existing one, then
runs the token-budget check.  askConversationStep returns the conversation
state that Ask subsequently sends to the provider. -/

/-- DEFAULT_INIT_MESSAGE of ask.go. -/
def DEFAULT_INIT_MESSAGE : String :=
  "You are chatGPT, trained on a very huge dataset of conversations. Act conversationally"

/-- Conversation creation inside Ask: the init message is the custom client
init text when non-empty, DEFAULT_INIT_MESSAGE otherwise (identical in both
revisions). -/
def askInitConversation (clientInit : String) : Conversation :=
  Conversation.initMessage ⟨"", "", []⟩
    ⟨"system", if clientInit ≠ "" then clientInit else DEFAULT_INIT_MESSAGE⟩

namespace AskGo

/-- Token-budget check of Ask, src/ask.go lines 137-142. -/
def budgetStep (c : Conversation) (engine : String) : Conversation :=
  if c.getTokenCount > getEngineTokenLimit engine then c.tokenizeMessage engine else c

/-- Conversation update of Ask in src/ask.go: create (system message only,
the prompt is not appended) or append the user prompt, then budget-check. -/
def askConversationStep (existing : Option Conversation) (clientInit prompt engine : String) :
    Conversation :=
  budgetStep
    (match existing with
      | none => askInitConversation clientInit
      | some c => c.addMessage ⟨"user", prompt⟩)
    engine

end AskGo

namespace AskV0

/-- getEngineTokenLimit of src/unnamed/part_000: exact engine names. -/
def getEngineTokenLimit (engine : String) : Nat :=
  if engine = "gpt-4-32k" then 32000 else if engine = "gpt-4" then 8000 else 4000

/-- tokenizeMessage as linked in the part_000 build: truncation against the
exact-name engine limits of that file. -/
def tokenizeMessage (c : Conversation) (engine : String) : Conversation :=
  if c.getTokenCount > getEngineTokenLimit engine then
    { c with Messages := [⟨"system", c.InitMessage⟩, ⟨"user", c.LastMessage⟩] }
  else c

/-- Token-budget check of Ask, src/unnamed/part_000 lines 142-147. -/
def budgetStep (c : Conversation) (engine : String) : Conversation :=
  if c.getTokenCount > getEngineTokenLimit engine then tokenizeMessage c engine else c

/-- Conversation update of Ask in src/unnamed/part_000: on creation the user
prompt is appended right after the init message (lines 128-131). -/
def askConversationStep (existing : Option Conversation) (clientInit prompt engine : String) :
    Conversation :=
  budgetStep
    (match existing with
      | none => (askInitConversation clientInit).addMessage ⟨"user", prompt⟩
      | some c => c.addMessage ⟨"user", prompt⟩)
    engine

end AskV0

/-! ### C1: the truncation result after an append -/

/-- An init message of 16004 bytes: its token count 4001 exceeds every budget
of at most 4000. -/
def bigInit : String := String.mk (List.replicate 16004 'a')

lemma foldl_utf8_replicate_a (n acc : Nat) :
    List.foldl (fun n c => n + c.utf8Size) acc (List.replicate n 'a') = acc + n := by
  induction n generalizing acc with
  | zero => simp
  | succ k ih =>
      have ha : Char.utf8Size 'a' = 1 := by decide
      simp [List.replicate_succ, ih, ha]
      omega

lemma utf8Len_bigInit : utf8Len bigInit = 16004 := by
  have h := foldl_utf8_replicate_a 16004 0
  rw [Nat.zero_add] at h
  exact h

lemma bigInit_ne_empty : bigInit ≠ "" := by
  intro h
  have h2 := congrArg utf8Len h
  rw [utf8Len_bigInit] at h2
  rw [show utf8Len "" = 0 from rfl] at h2
  exact absurd h2 (by decide)

lemma bigInit_ne_hi : bigInit ≠ "hi" := by
  intro h
  have := congrArg utf8Len h
  rw [utf8Len_bigInit] at this
  have : (16004 : Nat) = utf8Len "hi" := this
  rw [show utf8Len "hi" = 2 from by decide] at this
  exact absurd this (by decide)

/-- C1: with a 16004-byte init message the budget (4000 for gpt-3.5-turbo) is
exceeded as soon as the conversation is created, and the collapsed history's
second entry holds the init text — not the user turn "hi" — because the Ask of
src/ask.go never appends the first prompt of a fresh conversation.  The
alternate revision of the same function (src/unnamed/part_000) does append it
and produces the history the claim describes. -/
theorem ask_truncation_drops_first_prompt :
    (AskGo.askConversationStep none bigInit "hi" "gpt-3.5-turbo").Messages =
        [⟨"system", bigInit⟩, ⟨"user", bigInit⟩] ∧
      bigInit ≠ "hi" ∧
      (AskV0.askConversationStep none bigInit "hi" "gpt-3.5-turbo").Messages =
        [⟨"system", bigInit⟩, ⟨"user", "hi"⟩] := by
  have hne : bigInit ≠ "" := bigInit_ne_empty
  have hlim : getEngineTokenLimit "gpt-3.5-turbo" = 4000 := by decide
  have hlim0 : AskV0.getEngineTokenLimit "gpt-3.5-turbo" = 4000 := by decide
  have hconv : askInitConversation bigInit = ⟨bigInit, bigInit, [⟨"system", bigInit⟩]⟩ := by
    unfold askInitConversation Conversation.initMessage
    rw [if_pos hne]
    rfl
  have htc : (⟨bigInit, bigInit, [⟨"system", bigInit⟩]⟩ : Conversation).getTokenCount = 4001 := by
    simp only [Conversation.getTokenCount]
    rw [utf8Len_bigInit]
  refine ⟨?_, bigInit_ne_hi, ?_⟩
  · have e1 : AskGo.askConversationStep none bigInit "hi" "gpt-3.5-turbo" =
        AskGo.budgetStep (askInitConversation bigInit) "gpt-3.5-turbo" := rfl
    rw [e1, hconv]
    unfold AskGo.budgetStep Conversation.tokenizeMessage
    rw [htc, hlim]
    norm_num
  · have e1 : AskV0.askConversationStep none bigInit "hi" "gpt-3.5-turbo" =
        AskV0.budgetStep ((askInitConversation bigInit).addMessage ⟨"user", "hi"⟩)
          "gpt-3.5-turbo" := rfl
    rw [e1, hconv]
    have hconv2 : (⟨bigInit, bigInit, [⟨"system", bigInit⟩]⟩ : Conversation).addMessage
        ⟨"user", "hi"⟩ = ⟨bigInit, "hi", [⟨"system", bigInit⟩, ⟨"user", "hi"⟩]⟩ := rfl
    rw [hconv2]
    have htc2 : (⟨bigInit, "hi", [⟨"system", bigInit⟩, ⟨"user", "hi"⟩]⟩ :
        Conversation).getTokenCount = 4001 := by
      simp only [Conversation.getTokenCount]
      rw [utf8Len_bigInit]
    unfold AskV0.budgetStep AskV0.tokenizeMessage
    rw [htc2, hlim0]
    norm_num

/-! ## auth.go: the login handshake

HTTP exchanges are modelled by their observable answers: a status code and the
Location header.  stepTwo copies the cookies of its first response onto every
subsequent request; cookies never influence any value the claims mention and
are left out of the response model.  Transport-level failures (httpx.Do
returning err) abort with the error surfaced verbatim and are not modelled
either — every oracle response below represents a delivered HTTP response. -/

/-- An HTTP response as observed by the handshake: status code and Location
header (empty string when the header is absent, as Header.Get returns). -/
structure HttpResponse where
  status : Nat
  location : String
  deriving DecidableEq

/-- Errors produced by the handshake: ChatError carries a message and a
numeric code, while fmt.Errorf-style errors carry only a message. -/
inductive AuthErr where
  | chat (msg : String) (code : Nat)
  | generic (msg : String)
  deriving DecidableEq

/-- The invalid-credentials message of stepTwo. -/
def invalidCredentialsMsg : String :=
  "email and password combination is incorrect or you have not verified your email address yet"

/-- The _url_prefix constant of stepTwo. -/
def auth0Host : String := "https://auth0.openai.com"

/-- UTF-8 bytes of one character (for percent-encoding). -/
def utf8BytesOfChar (c : Char) : List Nat :=
  let n := c.toNat
  if n < 0x80 then [n]
  else if n < 0x800 then [0xC0 + n / 0x40, 0x80 + n % 0x40]
  else if n < 0x10000 then [0xE0 + n / 0x1000, 0x80 + n / 0x40 % 0x40, 0x80 + n % 0x40]
  else [0xF0 + n / 0x40000, 0x80 + n / 0x1000 % 0x40, 0x80 + n / 0x40 % 0x40, 0x80 + n % 0x40]

/-- Upper-case hex digit of a value below 16. -/
def hexDigit (n : Nat) : Char :=
  if n < 10 then Char.ofNat (48 + n) else Char.ofNat (55 + n)

/-- Go url.QueryEscape on one character: unreserved characters kept, space
becomes a plus, everything else is percent-encoded byte by byte. -/
def queryEscapeChar (c : Char) : List Char :=
  if c.isAlphanum || c = '-' || c = '_' || c = '.' || c = '~' then [c]
  else if c = ' ' then ['+']
  else (utf8BytesOfChar c).flatMap (fun b => ['%', hexDigit (b / 16), hexDigit (b % 16)])

/-- Go url.QueryEscape. -/
def urlQueryEscape (s : String) : String :=
  String.mk (s.data.flatMap queryEscapeChar)

/-- The state extraction of stepTwo line 203:
strings.Split(strings.Split(next_url, "state=")[1], "&")[0].  The index [1]
panics in Go when "state=" does not occur, hence the Option. -/
def extractState (next_url : String) : Option String :=
  match (goSplit next_url "state=").get? 1 with
  | none => none
  | some rest => some ((goSplit rest "&").headD "")

/-- stepOne of auth.go: GET the discovery endpoint, require status 200, decode
a state and a url (body = none models a JSON decode failure).  The returned
state is recorded as authState. -/
def stepOne (status : Nat) (body : Option (String × String)) :
    Except AuthErr (String × String) :=
  if status ≠ 200 then .error (.generic ("bad status: " ++ toString status))
  else
    match body with
    | none => .error (.generic "json decode error")
    | some sr => .ok sr

/-- stepTwo of auth.go, with the four HTTP exchanges answered by r1-r4: GET of
the authorize url, the username form post, the password form post and the
final redirect GET.  The outer none models the Go panic when the Location of
r1 carries no state parameter. -/
def stepTwo (auth_url email password : String) (r1 r2 r3 r4 : HttpResponse) :
    Option (Except AuthErr String) :=
  if r1.status ≠ 302 then
    some (.error (.generic ("bad status for url: " ++ auth_url)))
  else
    let next_url := auth0Host ++ r1.location
    match extractState next_url with
    | none => none
    | some current_state =>
      let _form_data := "state=" ++ current_state ++ "&username=" ++ urlQueryEscape email ++
        "&js-available=true&webauthn-available=true&is-brave=false&webauthn-platform-available=false&action=default"
      if r2.status ≠ 302 then
        if r2.status = 400 then some (.error (.chat invalidCredentialsMsg 400))
        else some (.error (.chat ("bad status for url: " ++ next_url) r2.status))
      else
        let next_url2 := auth0Host ++ r2.location
        let _form_data2 := "state=" ++ current_state ++ "&username=" ++ urlQueryEscape email ++
          "&password=" ++ urlQueryEscape password ++ "&action=default"
        if r3.status ≠ 302 then
          if r3.status = 400 then some (.error (.chat invalidCredentialsMsg 400))
          else some (.error (.chat ("bad status for url: " ++ next_url2) r3.status))
        else
          let next_url3 := auth0Host ++ r3.location
          if r4.status ≠ 302 then
            some (.error (.chat ("bad status for url: " ++ next_url3) r4.status))
          else some (.ok r4.location)

/-- Response of the token-exchange endpoint. -/
structure authResp where
  AccessToken : String
  Expires : Int
  Detail : String
  deriving DecidableEq

/-- Request body of stepThree: the state recorded in stepOne plus the callback
url captured from stepTwo. -/
def stepThreeBody (authState code_url : String) : String :=
  "state=" ++ authState ++ "&callbackUrl=" ++ urlQueryEscape code_url

/-- stepThree of auth.go: POST stepThreeBody and decode the response; no
status check and no detail check is performed. -/
def stepThree (authState code_url : String) (body : Option authResp) :
    Except AuthErr authResp :=
  let _request_body := stepThreeBody authState code_url
  match body with
  | none => .error (.generic "json decode error")
  | some r => .ok r

/-- GetAccessToken of auth.go on the fresh-acquisition path (cache disabled,
no unexpired token in memory): validate email/password, then run the three
steps in sequence, threading the stepOne state into stepThree. -/
def getAccessTokenFresh (email password : String) (oneStatus : Nat)
    (oneBody : Option (String × String)) (r1 r2 r3 r4 : HttpResponse)
    (threeBody : Option authResp) : Option (Except AuthErr authResp) :=
  if email = "" ∨ password = "" then
    some (.error (.generic "email and password must be set to authenticate with OpenAI"))
  else
    match stepOne oneStatus oneBody with
    | .error e => some (.error e)
    | .ok su =>
      match stepTwo su.2 email password r1 r2 r3 r4 with
      | none => none
      | some (.error e) => some (.error e)
      | some (.ok code_url) =>
        match stepThree su.1 code_url threeBody with
        | .error e => some (.error e)
        | .ok r => some (.ok r)

/-! ## The credential cache and client start-up (auth.go, client.go) -/

/-- One persisted cache entry: access token and expiry (time.Time modelled as
an opaque integer timestamp; its JSON round-trip is exact). -/
structure authCache where
  AccessToken : String
  Expires : Int
  deriving DecidableEq

/-- The decoded content of gpt-cache.json: a Go map from session name to
entry. -/
abbrev CacheMap := String → Option authCache

/-- The Auth struct of auth.go. -/
structure Auth where
  email : String
  password : String
  authState : String
  apiKey : String
  accessToken : String
  expires : Int
  enableCache : Bool
  clientStarted : Bool
  sessionName : String
  deriving DecidableEq

/-- cacheAccessToken of auth.go: decode the existing file into previousData
(empty when the file is missing or undecodable), replace the entry of this
session and write the whole mapping back.  The argument is the decoded state
of the file, the result the mapping written out. -/
def cacheAccessToken (file : Option CacheMap) (a : Auth) : CacheMap :=
  let previousData : CacheMap :=
    match file with
    | some m => m
    | none => fun _ => none
  fun k => if k = a.sessionName then some ⟨a.accessToken, a.expires⟩ else previousData k

/-- loadCachedAccessToken of auth.go: when the file exists, decodes and holds
an entry for this session, copy its token and expiry into the Auth struct;
otherwise leave the struct unchanged. -/
def loadCachedAccessToken (a : Auth) (file : Option CacheMap) : Auth :=
  match file with
  | none => a
  | some data =>
    match data a.sessionName with
    | some cache => { a with accessToken := cache.AccessToken, expires := cache.Expires }
    | none => a

/-- A cache file holding exactly one session entry. -/
def singletonCache (k : String) (v : authCache) : CacheMap :=
  fun x => if x = k then some v else none

/-- checkCredentials of client.go: some error message, or none when the
credentials are acceptable. -/
def checkCredentials (a : Auth) : Option String :=
  if a.apiKey = "" ∧ (a.email = "" ∨ a.password = "") ∧ a.accessToken = "" then
    some "no credentials provided, please set an API key, email and password, or access token"
  else if (a.email ≠ "" ∧ a.password = "") ∨ (a.email = "" ∧ a.password ≠ "") then
    some "email and password must be set together"
  else none

/-- The credential Start ends up using. -/
inductive AuthSelection where
  | apiKeyAuth
  | bearerTokenAuth
  | emailPasswordAuth
  | noSelection
  deriving DecidableEq

/-- Start of client.go, restricted to its credential selection (the proxy ping
runs only when a proxy is set, and what each selected branch then does —
caching, engine overrides, the email/password handshake — is not needed here):
load the cached token, validate credentials, then take the first branch of the
if/else-if chain — apiKey, then accessToken, then email+password. -/
def startSelect (a : Auth) (file : Option CacheMap) : Except String AuthSelection :=
  let a := loadCachedAccessToken a file
  match checkCredentials a with
  | some e => .error e
  | none =>
    if a.apiKey ≠ "" then .ok .apiKeyAuth
    else if a.accessToken ≠ "" then .ok .bearerTokenAuth
    else if a.email ≠ "" ∧ a.password ≠ "" then .ok .emailPasswordAuth
    else .ok .noSelection

/-! ### C6: cache round-trip and isolation -/

/-- C6: storing a credential for session s1 and loading s1 back returns
exactly that token and expiry; storing for s1 leaves any existing s2 entry of
the persisted mapping unchanged; and loading s1 from a cache that only holds
s2 leaves the in-memory credential untouched. -/
theorem cache_roundtrip_and_session_isolation (file : Option CacheMap) (T : String) (E : Int)
    (a : Auth) (c2 : authCache) :
    (loadCachedAccessToken { a with sessionName := "s1" }
        (some (cacheAccessToken file { a with sessionName := "s1", accessToken := T, expires := E }))).accessToken = T ∧
      (loadCachedAccessToken { a with sessionName := "s1" }
        (some (cacheAccessToken file { a with sessionName := "s1", accessToken := T, expires := E }))).expires = E ∧
      cacheAccessToken file { a with sessionName := "s1", accessToken := T, expires := E } "s2" =
        (match file with | some m => m "s2" | none => none) ∧
      loadCachedAccessToken { a with sessionName := "s1" } (some (singletonCache "s2" c2)) =
        { a with sessionName := "s1" } := by
  refine ⟨?_, ?_, ?_, ?_⟩
  · simp [loadCachedAccessToken, cacheAccessToken]
  · simp [loadCachedAccessToken, cacheAccessToken]
  · simp only [cacheAccessToken]
    rw [if_neg (by decide)]
    cases file <;> rfl
  · simp [loadCachedAccessToken, singletonCache]

/-! ### C9: credential precedence of Start -/

/-- C9: when email+password and a bearer access token are both configured (and
no api key), Start takes the access-token branch, not the email/password one —
the chain tests accessToken before email/password, although the documentation
of checkCredentials promises the order api key, then email and password, then
access token.  With an api key present the api-key branch wins as documented. -/
theorem start_prefers_bearer_token_over_email_password :
    startSelect ⟨"user@mail.test", "pw", "", "", "tok", 0, true, false, "default"⟩ none =
        .ok .bearerTokenAuth ∧
      startSelect ⟨"user@mail.test", "pw", "", "sk-key", "tok", 0, true, false, "default"⟩ none =
        .ok .apiKeyAuth := by
  constructor
  · rfl
  · rfl

/-! ### C2: the state token is never checked against the echoed state -/

/-- C2: a complete, successful acquisition run in which the state echoed in
the Location header of the first stepTwo response is EVIL while stepOne
recorded the state token GOOD: stepTwo extracts EVIL, never compares it with
GOOD, and the handshake proceeds to stepThree and succeeds. -/
theorem handshake_accepts_mismatched_state_echo :
    getAccessTokenFresh "user@mail.test" "pw" 200 (some ("GOOD", "https://auth.example/one"))
        ⟨302, "/authorize?state=EVIL&client=x"⟩ ⟨302, "/u/login/identifier?state=EVIL"⟩
        ⟨302, "/authorize/resume?state=EVIL"⟩
        ⟨302, "https://chat-api.zhile.io/auth/callback?code=abc"⟩
        (some ⟨"tok", 99, ""⟩) = some (.ok ⟨"tok", 99, ""⟩) ∧
      extractState (auth0Host ++ "/authorize?state=EVIL&client=x") = some "EVIL" ∧
      "EVIL" ≠ "GOOD" := by
  refine ⟨?_, by decide, by decide⟩
  rfl

/-- C2 amended: stepTwo succeeds whenever all four exchanges answer 302 and
the first Location carries some state parameter — whatever that echoed state
is, it is only re-posted in the form bodies and never compared with the
stateToken recorded in stepOne (which stepTwo does not even receive; the
stepOne token is used independently in stepThreeBody). -/
theorem stepTwo_succeeds_without_state_comparison (auth_url email password : String)
    (r1 r2 r3 r4 : HttpResponse) (st : String)
    (h1 : r1.status = 302) (h2 : r2.status = 302) (h3 : r3.status = 302)
    (h4 : r4.status = 302) (hst : extractState (auth0Host ++ r1.location) = some st) :
    stepTwo auth_url email password r1 r2 r3 r4 = some (.ok r4.location) := by
  simp [stepTwo, h1, h2, h3, h4, hst]

/-- Witness for the amended C2 theorem at a concrete trace. -/
theorem stepTwo_succeeds_without_state_comparison_witness :
    stepTwo "https://auth.example/one" "user@mail.test" "pw" ⟨302, "/a?state=S"⟩ ⟨302, "/b"⟩
        ⟨302, "/c"⟩ ⟨302, "https://final.example/cb"⟩ =
      some (.ok "https://final.example/cb") :=
  stepTwo_succeeds_without_state_comparison "https://auth.example/one" "user@mail.test" "pw"
    ⟨302, "/a?state=S"⟩ ⟨302, "/b"⟩ ⟨302, "/c"⟩ ⟨302, "https://final.example/cb"⟩ "S"
    rfl rfl rfl rfl (by decide)

/-! ### C4: the error taxonomy of stepTwo -/

/-- C4 counterexample: a non-302 status on the initial authorize GET (an HTTP
exchange of the handshake after stepOne) produces a plain error that records
only the URL — no status code is part of the error, unlike the ChatError the
claim describes. -/
theorem stepTwo_first_get_error_records_no_status :
    stepTwo "https://auth.example/one" "user@mail.test" "pw" ⟨500, ""⟩ ⟨302, ""⟩ ⟨302, ""⟩
        ⟨302, ""⟩ = some (.error (.generic "bad status for url: https://auth.example/one")) ∧
      AuthErr.generic "bad status for url: https://auth.example/one" ≠
        AuthErr.chat "bad status for url: https://auth.example/one" 500 := by
  exact ⟨rfl, by decide⟩

/-- C4 amended: a 400 on either credential form post yields the specific
invalid-credentials ChatError; any other non-302 on the form posts or on the
final redirect GET yields a ChatError recording the offending URL and the
status; but a non-302 on the initial authorize GET yields a plain error that
records the URL only. -/
theorem stepTwo_error_taxonomy (auth_url email password : String)
    (r1 r2 r3 r4 : HttpResponse) (st : String)
    (hst : extractState (auth0Host ++ r1.location) = some st) :
    (r1.status ≠ 302 → stepTwo auth_url email password r1 r2 r3 r4 =
        some (.error (.generic ("bad status for url: " ++ auth_url)))) ∧
      (r1.status = 302 → r2.status = 400 → stepTwo auth_url email password r1 r2 r3 r4 =
        some (.error (.chat invalidCredentialsMsg 400))) ∧
      (r1.status = 302 → r2.status ≠ 302 → r2.status ≠ 400 →
        stepTwo auth_url email password r1 r2 r3 r4 = some (.error
          (.chat ("bad status for url: " ++ (auth0Host ++ r1.location)) r2.status))) ∧
      (r1.status = 302 → r2.status = 302 → r3.status = 400 →
        stepTwo auth_url email password r1 r2 r3 r4 =
          some (.error (.chat invalidCredentialsMsg 400))) ∧
      (r1.status = 302 → r2.status = 302 → r3.status ≠ 302 → r3.status ≠ 400 →
        stepTwo auth_url email password r1 r2 r3 r4 = some (.error
          (.chat ("bad status for url: " ++ (auth0Host ++ r2.location)) r3.status))) ∧
      (r1.status = 302 → r2.status = 302 → r3.status = 302 → r4.status ≠ 302 →
        stepTwo auth_url email password r1 r2 r3 r4 = some (.error
          (.chat ("bad status for url: " ++ (auth0Host ++ r3.location)) r4.status))) := by
  refine ⟨?_, ?_, ?_, ?_, ?_, ?_⟩
  · intro h1
    simp [stepTwo, h1]
  · intro h1 h2
    simp [stepTwo, h1, h2, hst]
  · intro h1 h2 h2b
    simp [stepTwo, h1, h2, h2b, hst]
  · intro h1 h2 h3
    simp [stepTwo, h1, h2, h3, hst]
  · intro h1 h2 h3 h3b
    simp [stepTwo, h1, h2, h3, h3b, hst]
  · intro h1 h2 h3 h4
    simp [stepTwo, h1, h2, h3, h4, hst]

/-- Witness for the amended C4 theorem: the invalid-credentials case on the
first form post and the URL+status case on the final redirect GET, at concrete
traces. -/
theorem stepTwo_error_taxonomy_witness :
    stepTwo "u" "user@mail.test" "pw" ⟨302, "/a?state=S"⟩ ⟨400, ""⟩ ⟨302, ""⟩ ⟨302, ""⟩ =
        some (.error (.chat invalidCredentialsMsg 400)) ∧
      stepTwo "u" "user@mail.test" "pw" ⟨302, "/a?state=S"⟩ ⟨302, "/b"⟩ ⟨302, "/c"⟩ ⟨503, ""⟩ =
        some (.error (.chat ("bad status for url: " ++ (auth0Host ++ "/c")) 503)) := by
  constructor
  · exact (stepTwo_error_taxonomy "u" "user@mail.test" "pw" ⟨302, "/a?state=S"⟩ ⟨400, ""⟩
      ⟨302, ""⟩ ⟨302, ""⟩ "S" (by decide)).2.1 rfl rfl
  · exact ((stepTwo_error_taxonomy "u" "user@mail.test" "pw" ⟨302, "/a?state=S"⟩ ⟨302, "/b"⟩
      ⟨302, "/c"⟩ ⟨503, ""⟩ "S" (by decide)).2.2.2.2.2) rfl rfl rfl (by decide)

/-! ## The stream decoder (parseResponse / startScan)

The decoder consumes the response body line by line.  encoding/json and the
small pieces of the strings package it relies on are modelled below; the
decoded dynamic value mirrors the interface-typed values Go produces. -/

/-- A decoded JSON value, as Go json.Unmarshal stores it in an interface:
objects become maps, arrays slices, strings strings; numbers keep their
lexeme here (Go stores float64 — the distinction only shows in the %v
formatting of non-string parts, which no real frame uses). -/
inductive Json where
  | null
  | bool (b : Bool)
  | num (lexeme : String)
  | str (s : String)
  | arr (elems : List Json)
  | obj (members : List (String × Json))

/-- Skip JSON whitespace. -/
def skipWs : List Char → List Char
  | [] => []
  | c :: rest => if c = ' ' || c = '\t' || c = '\n' || c = '\r' then skipWs rest else c :: rest

/-- Hex digit value. -/
def hexVal (c : Char) : Option Nat :=
  if c.isDigit then some (c.toNat - 48)
  else if 'a' ≤ c && c ≤ 'f' then some (c.toNat - 87)
  else if 'A' ≤ c && c ≤ 'F' then some (c.toNat - 55)
  else none

/-- Parse the rest of a JSON string after the opening quote; acc holds the
characters read so far, reversed.  Escapes are decoded (surrogate pairs are
approximated by the raw \u value, which no input of this development
contains). -/
def parseStringRest : Nat → List Char → List Char → Option (String × List Char)
  | 0, _, _ => none
  | fuel + 1, cs, acc =>
    match cs with
    | [] => none
    | '"' :: rest => some (String.mk acc.reverse, rest)
    | '\\' :: e :: rest =>
      match e with
      | '"' => parseStringRest fuel rest ('"' :: acc)
      | '\\' => parseStringRest fuel rest ('\\' :: acc)
      | '/' => parseStringRest fuel rest ('/' :: acc)
      | 'n' => parseStringRest fuel rest ('\n' :: acc)
      | 't' => parseStringRest fuel rest ('\t' :: acc)
      | 'r' => parseStringRest fuel rest ('\r' :: acc)
      | 'b' => parseStringRest fuel rest (Char.ofNat 8 :: acc)
      | 'f' => parseStringRest fuel rest (Char.ofNat 12 :: acc)
      | 'u' =>
        match rest with
        | h1 :: h2 :: h3 :: h4 :: rest2 =>
          match hexVal h1, hexVal h2, hexVal h3, hexVal h4 with
          | some a, some b, some c, some d =>
              parseStringRest fuel rest2 (Char.ofNat (a * 4096 + b * 256 + c * 16 + d) :: acc)
          | _, _, _, _ => none
        | _ => none
      | _ => none
    | c :: rest => if c.toNat < 32 then none else parseStringRest fuel rest (c :: acc)

/-- One or more digits. -/
def parseDigits (cs : List Char) : Option (List Char × List Char) :=
  let ds := cs.takeWhile (fun c => c.isDigit)
  if ds.isEmpty then none else some (ds, cs.drop ds.length)

/-- Optional fraction part. -/
def parseFracPart (cs : List Char) : Option (List Char × List Char) :=
  match cs with
  | '.' :: r =>
    match parseDigits r with
    | some dr => some ('.' :: dr.1, dr.2)
    | none => none
  | _ => some ([], cs)

/-- Optional exponent part. -/
def parseExpPart (cs : List Char) : Option (List Char × List Char) :=
  match cs with
  | 'e' :: '-' :: r =>
    match parseDigits r with
    | some dr => some ('e' :: '-' :: dr.1, dr.2)
    | none => none
  | 'e' :: '+' :: r =>
    match parseDigits r with
    | some dr => some ('e' :: '+' :: dr.1, dr.2)
    | none => none
  | 'e' :: r =>
    match parseDigits r with
    | some dr => some ('e' :: dr.1, dr.2)
    | none => none
  | 'E' :: '-' :: r =>
    match parseDigits r with
    | some dr => some ('E' :: '-' :: dr.1, dr.2)
    | none => none
  | 'E' :: '+' :: r =>
    match parseDigits r with
    | some dr => some ('E' :: '+' :: dr.1, dr.2)
    | none => none
  | 'E' :: r =>
    match parseDigits r with
    | some dr => some ('E' :: dr.1, dr.2)
    | none => none
  | _ => some ([], cs)

/-- JSON number: optional sign, digits, optional fraction and exponent (the
leading-zero restriction of the JSON grammar is not enforced; no claim input
contains a number). -/
def parseNum (cs : List Char) : Option (String × List Char) :=
  let sgn : List Char × List Char :=
    match cs with
    | '-' :: r => (['-'], r)
    | _ => ([], cs)
  match parseDigits sgn.2 with
  | none => none
  | some ip =>
    match parseFracPart ip.2 with
    | none => none
    | some fp =>
      match parseExpPart fp.2 with
      | none => none
      | some ep => some (String.mk (sgn.1 ++ ip.1 ++ fp.1 ++ ep.1), ep.2)

mutual

/-- Parse one JSON value.  The fuel argument keeps the mutual recursion
structural (three levels of calls always consume at least one character, so
three fuel units per input character suffice). -/
def parseValue : Nat → List Char → Option (Json × List Char)
  | 0, _ => none
  | fuel + 1, cs =>
    match skipWs cs with
    | '{' :: rest => parseObjBody fuel rest
    | '[' :: rest => parseArrBody fuel rest
    | '"' :: rest =>
      match parseStringRest (rest.length + 1) rest [] with
      | some sr => some (Json.str sr.1, sr.2)
      | none => none
    | 't' :: 'r' :: 'u' :: 'e' :: rest => some (Json.bool true, rest)
    | 'f' :: 'a' :: 'l' :: 's' :: 'e' :: rest => some (Json.bool false, rest)
    | 'n' :: 'u' :: 'l' :: 'l' :: rest => some (Json.null, rest)
    | other =>
      match parseNum other with
      | some nr => some (Json.num nr.1, nr.2)
      | none => none

/-- Parse an object body after the opening brace. -/
def parseObjBody : Nat → List Char → Option (Json × List Char)
  | 0, _ => none
  | fuel + 1, cs =>
    match skipWs cs with
    | '}' :: rest => some (Json.obj [], rest)
    | _ => parseMembers fuel cs []

/-- Parse the members of a non-empty object. -/
def parseMembers : Nat → List Char → List (String × Json) → Option (Json × List Char)
  | 0, _, _ => none
  | fuel + 1, cs, acc =>
    match skipWs cs with
    | '"' :: rest =>
      match parseStringRest (rest.length + 1) rest [] with
      | none => none
      | some kr =>
        match skipWs kr.2 with
        | ':' :: rest2 =>
          match parseValue fuel rest2 with
          | none => none
          | some vr =>
            match skipWs vr.2 with
            | ',' :: rest3 => parseMembers fuel rest3 (acc ++ [(kr.1, vr.1)])
            | '}' :: rest3 => some (Json.obj (acc ++ [(kr.1, vr.1)]), rest3)
            | _ => none
        | _ => none
    | _ => none

/-- Parse an array body after the opening bracket. -/
def parseArrBody : Nat → List Char → Option (Json × List Char)
  | 0, _ => none
  | fuel + 1, cs =>
    match skipWs cs with
    | ']' :: rest => some (Json.arr [], rest)
    | _ => parseElems fuel cs []

/-- Parse the elements of a non-empty array. -/
def parseElems : Nat → List Char → List Json → Option (Json × List Char)
  | 0, _, _ => none
  | fuel + 1, cs, acc =>
    match parseValue fuel cs with
    | none => none
    | some vr =>
      match skipWs vr.2 with
      | ',' :: rest => parseElems fuel rest (acc ++ [vr.1])
      | ']' :: rest => some (Json.arr (acc ++ [vr.1]), rest)
      | _ => none

end

/-- Go json.Unmarshal into map[string]interface\x7b\x7d: the top-level value
must be an object and nothing but whitespace may follow. -/
def jsonUnmarshalObj (s : String) : Option (List (String × Json)) :=
  match parseValue (3 * s.data.length + 3) s.data with
  | some r =>
    match r.1 with
    | Json.obj m => if (skipWs r.2).isEmpty then some m else none
    | _ => none
  | none => none

/-- Go map lookup on a decoded object: with duplicate keys the last one wins,
as in encoding/json. -/
def jlookup (m : List (String × Json)) (k : String) : Option Json :=
  match m.reverse.find? (fun p => p.1 == k) with
  | some p => some p.2
  | none => none

/-- Go type assertion .(map[string]interface\x7b\x7d). -/
def asObj : Json → Option (List (String × Json))
  | .obj m => some m
  | _ => none

/-- Go type assertion .(string). -/
def asStr : Json → Option String
  | .str s => some s
  | _ => none

/-- Go type assertion .([]interface\x7b\x7d). -/
def asArr : Json → Option (List Json)
  | .arr l => some l
  | _ => none

mutual

/-- Go fmt.Sprintf with the %v verb on an interface value decoded from JSON.
Strings print verbatim (the only case real frames exercise: parts are
strings); numbers print their lexeme (Go reformats the float64 it stores —
a documented approximation), maps print in insertion rather than sorted key
order. -/
def sprintfV : Json → String
  | .str s => s
  | .bool true => "true"
  | .bool false => "false"
  | .null => "<nil>"
  | .num lexeme => lexeme
  | .arr l => "[" ++ sprintfVList l ++ "]"
  | .obj m => "map[" ++ sprintfVMembers m ++ "]"

/-- Space-separated %v rendering of a slice. -/
def sprintfVList : List Json → String
  | [] => ""
  | [x] => sprintfV x
  | x :: xs => sprintfV x ++ " " ++ sprintfVList xs

/-- key:value rendering of a map. -/
def sprintfVMembers : List (String × Json) → String
  | [] => ""
  | [p] => p.1 ++ ":" ++ sprintfV p.2
  | p :: ps => p.1 ++ ":" ++ sprintfV p.2 ++ " " ++ sprintfVMembers ps

end

/-- Go strings.HasPrefix. -/
def goHasPre (s pre : String) : Bool :=
  listIsPre pre.data s.data

/-- Drop the first n characters (used only to strip the ASCII prefix
"data: ", where characters and bytes coincide). -/
def goDropChars (s : String) (n : Nat) : String :=
  String.mk (s.data.drop n)

/-- Go unicode space test, restricted to the ASCII range that the provider's
line protocol can contain. -/
def isSpaceChar (c : Char) : Bool :=
  c = ' ' || c = '\t' || c = '\n' || c = '\r' || c = '\x0b' || c = '\x0c'

/-- Go strings.TrimSpace. -/
def goTrimSpace (s : String) : String :=
  String.mk (((s.data.dropWhile isSpaceChar).reverse.dropWhile isSpaceChar).reverse)

/-- First index at which the needle occurs. -/
def firstIdxAux (hay needle : List Char) (i : Nat) : Option Nat :=
  match hay with
  | [] => if needle.isEmpty then some i else none
  | _ :: rest => if listIsPre needle hay then some i else firstIdxAux rest needle (i + 1)

/-- Last index of a closing brace. -/
def lastCloseIdx (cs : List Char) (i : Nat) : Option Nat :=
  match cs with
  | [] => none
  | c :: rest =>
    match lastCloseIdx rest (i + 1) with
    | some j => some j
    | none => if c = '}' then some i else none

/-- The literal part of the detail regex of ask.go. -/
def detailRegexLit : String := "\x7b\"detail\":"

/-- FindString of the Go regexp \x7b"detail":.*\x7d — leftmost match start,
greedy .* up to the last closing brace of the line; the empty string when the
line has no match. -/
def findDetail (line : String) : String :=
  let cs := line.data
  let lit := detailRegexLit.data
  match firstIdxAux cs lit 0 with
  | none => ""
  | some i =>
    match lastCloseIdx cs 0 with
    | none => ""
    | some j =>
      if i + lit.length ≤ j then String.mk ((cs.drop i).take (j + 1 - i)) else ""

/-- The ChatResponse struct of ask.go (the unexported done flag of the
src/ask.go revision is never set by the decoder and is left out). -/
structure ChatResponse where
  Message : String
  ConversationID : String
  ParentID : String
  Model : String
  deriving DecidableEq

/-- checkFields of ask.go: message must be an object holding a content object
whose parts is a non-empty array. -/
def checkFields (parsedLine : List (String × Json)) : Bool :=
  match (jlookup parsedLine "message").bind asObj with
  | none => false
  | some message =>
    match (jlookup message "content").bind asObj with
    | none => false
    | some content =>
      match (jlookup content "parts").bind asArr with
      | none => false
      | some parts => !parts.isEmpty

/-! ### The scan state machine

startScan is a loop over the remaining lines; its observable effects are the
local messages slice (returned in buffered mode), the frames pushed onto the
delivery channel in live mode, and whether/how often the channel is closed.
sentRaws additionally records the pre-TrimSpace text of every frame sent on
the channel, for stating delivery invariants; it mirrors no Go state and
influences nothing. -/

/-- The observable accumulator of one startScan run. -/
structure ScanState where
  messages : List ChatResponse
  sent : List ChatResponse
  sentRaws : List String
  deriving DecidableEq

/-- How a startScan run terminates: a normal return (messages, nil error), a
detail error return, or a Go runtime panic (closing a nil channel, or a failed
unchecked type assertion).  closes counts executed close operations on the
delivery channel. -/
inductive ScanOutcome where
  | ok (st : ScanState) (closes : Nat)
  | errorDetail (msg : String) (st : ScanState) (closes : Nat)
  | crash (st : ScanState) (closes : Nat)
  deriving DecidableEq

/-- The accumulator carried by an outcome. -/
def stOf : ScanOutcome → ScanState
  | .ok st _ => st
  | .errorDetail _ st _ => st
  | .crash st _ => st

/-- What distinguishes the two revisions of the decoder: the literal the
detail guard looks for, and whether the final close of the channel is guarded
by a nil check. -/
structure ScanCfg where
  detailLit : String
  guardedClose : Bool

/-- src/ask.go: the guard literal is \x7b"detail":\x7d and close(streamChannel)
runs unconditionally (lines 416 and 455). -/
def askGoCfg : ScanCfg := ⟨"\x7b\"detail\":\x7d", false⟩

/-- src/unnamed/part_000: the guard literal is \x7b"detail": and the close is
wrapped in a nil check (lines 555 and 609-611). -/
def askV0Cfg : ScanCfg := ⟨"\x7b\"detail\":", true⟩

/-- What processing one line does. -/
inductive LineAction where
  | skipLine
  | warnUnsupported (t : String)
  | detailErr (msg : String)
  | doneSentinel
  | frame (raw : String) (resp : ChatResponse)
  | crashTypeAssert

/-- The body of the scan loop for one line, mirroring startScan: skip blanks,
event lines and non-data lines; fail on the detail guard; stop on the
sentinel; unmarshal and shape-check; then extract the text, conversation id
and message id — the last two via unchecked type assertions that panic when
the field is missing or not a string. -/
def processLine (cfg : ScanCfg) (line : String) : LineAction :=
  if line == "" || goHasPre line "event: " then .skipLine
  else if !goHasPre line "data: " then .skipLine
  else if goContains line cfg.detailLit then .detailErr (findDetail line)
  else
    let payload := goDropChars line 6
    if payload == "[DONE]" then .doneSentinel
    else
      match jsonUnmarshalObj payload with
      | none => .skipLine
      | some parsedLine =>
        if !checkFields parsedLine then .skipLine
        else
          match (jlookup parsedLine "message").bind asObj with
          | none => .skipLine
          | some msgObj =>
            match (jlookup msgObj "content").bind asObj with
            | none => .skipLine
            | some content =>
              match (jlookup content "content_type").bind asStr with
              | some ct =>
                if ct == "text" then
                  match (jlookup content "parts").bind asArr with
                  | none => .skipLine
                  | some [] => .skipLine
                  | some (p0 :: _) =>
                    let message := sprintfV p0
                    match (jlookup parsedLine "conversation_id").bind asStr,
                        (jlookup msgObj "id").bind asStr with
                    | some cid, some pid =>
                        .frame message ⟨goTrimSpace message, cid, pid, ""⟩
                    | _, _ => .crashTypeAssert
                else .warnUnsupported ct
              | none => .warnUnsupported ""

/-- The close at the end of the scan loop: in live mode the channel is closed
once; in buffered mode the channel is nil, so the unguarded revision panics
while the guarded one skips the close. -/
def closeStep (cfg : ScanCfg) (live : Bool) (st : ScanState) : ScanOutcome :=
  if live then .ok st 1
  else if cfg.guardedClose then .ok st 0
  else .crash st 0

/-- The scan loop of startScan over the remaining lines.  A frame is sent on
the channel when live and its raw text is non-empty; otherwise it is appended
to the local messages slice (also in live mode, where that slice is
discarded).  Detail errors and panics return without reaching the close. -/
def scanLoop (cfg : ScanCfg) (live : Bool) : List String → ScanState → ScanOutcome
  | [], st => closeStep cfg live st
  | line :: rest, st =>
    match processLine cfg line with
    | .skipLine => scanLoop cfg live rest st
    | .warnUnsupported _ => scanLoop cfg live rest st
    | .detailErr msg => .errorDetail msg st 0
    | .doneSentinel => closeStep cfg live st
    | .crashTypeAssert => .crash st 0
    | .frame raw resp =>
      if live && raw != "" then
        scanLoop cfg live rest
          { st with sent := st.sent ++ [resp], sentRaws := st.sentRaws ++ [raw] }
      else
        scanLoop cfg live rest { st with messages := st.messages ++ [resp] }

/-- startScan on a list of remaining lines. -/
def startScanCore (cfg : ScanCfg) (live : Bool) (lines : List String) : ScanOutcome :=
  scanLoop cfg live lines ⟨[], [], []⟩

/-- parseResponse: consume the first line and fail when it matches the detail
guard (without ever starting the scan — in live mode the channel then stays
unclosed); otherwise run startScan on the rest.  In live mode the scan runs in
a goroutine; the outcome models the effects of that whole run. -/
def parseResponseCore (cfg : ScanCfg) (live : Bool) (lines : List String) : ScanOutcome :=
  match lines with
  | [] => startScanCore cfg live []
  | first :: rest =>
    if goContains first cfg.detailLit then .errorDetail (findDetail first) ⟨[], [], []⟩ 0
    else startScanCore cfg live rest

namespace AskGo

/-- startScan of src/ask.go. -/
def startScan (live : Bool) (lines : List String) : ScanOutcome :=
  startScanCore askGoCfg live lines

/-- parseResponse of src/ask.go. -/
def parseResponse (live : Bool) (lines : List String) : ScanOutcome :=
  parseResponseCore askGoCfg live lines

end AskGo

namespace AskV0

/-- startScan of src/unnamed/part_000. -/
def startScan (live : Bool) (lines : List String) : ScanOutcome :=
  startScanCore askV0Cfg live lines

/-- parseResponse of src/unnamed/part_000. -/
def parseResponse (live : Bool) (lines : List String) : ScanOutcome :=
  parseResponseCore askV0Cfg live lines

end AskV0

/-! ### Concrete streams of the claims -/

/-- The synthetic stream of the spec: an event line, a malformed data line, a
well-formed frame and the sentinel, with blank separators. -/
def streamC3 : List String :=
  ["event: x", "", "data: \x7bmalformed\x7d", "",
    "data: \x7b\"message\":\x7b\"id\":\"m1\",\"content\":\x7b\"content_type\":\"text\",\"parts\":[\"Hi\"]\x7d\x7d,\"conversation_id\":\"c1\"\x7d",
    "", "data: [DONE]"]

/-- A first line carrying a detail object. -/
def detailLine : String := "\x7b\"detail\":\"rate limited\"\x7d"

/-- A well-formed frame whose only part is the empty string. -/
def emptyPartLine : String :=
  "data: \x7b\"message\":\x7b\"id\":\"m1\",\"content\":\x7b\"content_type\":\"text\",\"parts\":[\"\"]\x7d\x7d,\"conversation_id\":\"c1\"\x7d"

/-- A well-formed frame whose only part is a single space. -/
def spacePartLine : String :=
  "data: \x7b\"message\":\x7b\"id\":\"m1\",\"content\":\x7b\"content_type\":\"text\",\"parts\":[\" \"]\x7d\x7d,\"conversation_id\":\"c1\"\x7d"

/-! ### C3: buffered decoding of the synthetic stream -/

/-- C3: on the synthetic stream, the buffered decode of src/ask.go correctly
accumulates the single frame (conversation c1, turn m1, text Hi) but then
panics closing the nil delivery channel instead of returning it — the
unconditional close(streamChannel) of startScan line 455.  The alternate
revision guards the close and returns exactly that frame. -/
theorem buffered_decode_panics_on_nil_channel_close :
    AskGo.parseResponse false streamC3 = .crash ⟨[⟨"Hi", "c1", "m1", ""⟩], [], []⟩ 0 ∧
      AskV0.parseResponse false streamC3 = .ok ⟨[⟨"Hi", "c1", "m1", ""⟩], [], []⟩ 0 := by
  constructor
  · decide
  · decide

/-! ### C7: a detail object on the first line -/

/-- C7: the first-line guard of src/ask.go looks for the literal
\x7b"detail":\x7d, which the realistic detail line \x7b"detail":"rate
limited"\x7d does not contain, so no error is raised: the live decode
completes normally with zero frames and no error, and the buffered decode
panics at the nil-channel close — contradicting the comment above the guard
("if \x7b "detail": "..." \x7d is found in first line, return error") and the
alternate revision, whose guard \x7b"detail": matches and which returns the
fatal error with zero frames. -/
theorem first_line_detail_error_not_raised :
    AskGo.parseResponse true [detailLine] = .ok ⟨[], [], []⟩ 1 ∧
      AskGo.parseResponse false [detailLine] = .crash ⟨[], [], []⟩ 0 ∧
      goContains detailLine askGoCfg.detailLit = false ∧
      AskV0.parseResponse false [detailLine] = .errorDetail detailLine ⟨[], [], []⟩ 0 := by
  refine ⟨by decide, by decide, by decide, by decide⟩

/-! ### C8: closing of the live delivery channel -/

/-- C8 counterexample: two terminating live-mode runs that end in a detail
error and never close the delivery channel (closes = 0): a mid-stream detail
line under src/ask.go, and a first-line detail under the alternate revision
(where parseResponse errors out before the scanning goroutine ever starts). -/
theorem live_detail_error_leaves_channel_unclosed :
    AskGo.parseResponse true ["x", "data: \x7b\"detail\":\x7d"] =
        .errorDetail "\x7b\"detail\":\x7d" ⟨[], [], []⟩ 0 ∧
      AskV0.parseResponse true [detailLine] = .errorDetail detailLine ⟨[], [], []⟩ 0 := by
  refine ⟨by decide, by decide⟩

lemma scanLoop_live_cases (cfg : ScanCfg) (lines : List String) :
    ∀ st : ScanState,
      (∃ st2, scanLoop cfg true lines st = .ok st2 1) ∨
        (∃ m st2, scanLoop cfg true lines st = .errorDetail m st2 0) ∨
        (∃ st2, scanLoop cfg true lines st = .crash st2 0) := by
  induction lines with
  | nil =>
      intro st
      left
      exact ⟨st, by simp [scanLoop, closeStep]⟩
  | cons line rest ih =>
      intro st
      cases h : processLine cfg line with
      | skipLine => simpa [scanLoop, h] using ih st
      | warnUnsupported t => simpa [scanLoop, h] using ih st
      | detailErr m =>
          right; left
          exact ⟨m, st, by simp [scanLoop, h]⟩
      | doneSentinel =>
          left
          exact ⟨st, by simp [scanLoop, h, closeStep]⟩
      | crashTypeAssert =>
          right; right
          exact ⟨st, by simp [scanLoop, h]⟩
      | frame raw resp =>
          by_cases hb : (true && raw != "") = true
          · simpa [scanLoop, h, hb] using
              ih { st with sent := st.sent ++ [resp], sentRaws := st.sentRaws ++ [raw] }
          · simpa [scanLoop, h, hb] using ih { st with messages := st.messages ++ [resp] }

lemma parseResponse_live_cases (cfg : ScanCfg) (lines : List String) :
    (∃ st2, parseResponseCore cfg true lines = .ok st2 1) ∨
      (∃ m st2, parseResponseCore cfg true lines = .errorDetail m st2 0) ∨
      (∃ st2, parseResponseCore cfg true lines = .crash st2 0) := by
  cases lines with
  | nil =>
      left
      exact ⟨⟨[], [], []⟩, by simp [parseResponseCore, startScanCore, scanLoop, closeStep]⟩
  | cons first rest =>
      by_cases hc : goContains first cfg.detailLit = true
      · right; left
        exact ⟨findDetail first, ⟨[], [], []⟩, by simp [parseResponseCore, hc]⟩
      · simpa [parseResponseCore, startScanCore, hc] using
          scanLoop_live_cases cfg rest ⟨[], [], []⟩

/-- C8 amended: on every input stream, a live-mode decode run of either
revision closes the delivery channel exactly once when it terminates normally
(end of input or sentinel) and never closes it twice; but on the fatal
detail-error paths, and on the panic of an unchecked type assertion, it
returns with the channel left unclosed. -/
theorem live_decode_close_discipline (lines : List String) :
    ((∃ st, AskGo.parseResponse true lines = .ok st 1) ∨
        (∃ m st, AskGo.parseResponse true lines = .errorDetail m st 0) ∨
        (∃ st, AskGo.parseResponse true lines = .crash st 0)) ∧
      ((∃ st, AskV0.parseResponse true lines = .ok st 1) ∨
        (∃ m st, AskV0.parseResponse true lines = .errorDetail m st 0) ∨
        (∃ st, AskV0.parseResponse true lines = .crash st 0)) :=
  ⟨parseResponse_live_cases askGoCfg lines, parseResponse_live_cases askV0Cfg lines⟩

/-! ### C10: delivery of empty-text frames -/

/-- C10 counterexample: a decoded frame with empty text is delivered in both
modes.  Buffered mode appends every well-shaped frame whatever its text (the
channel-and-nonempty guard of startScan only protects the live send), so the
empty-part frame ends up in the returned list; and in live mode a
whitespace-only part passes the raw-nonempty guard and is sent with its text
trimmed to the empty string. -/
theorem empty_text_frame_is_delivered :
    AskV0.parseResponse false ["head", emptyPartLine] =
        .ok ⟨[⟨"", "c1", "m1", ""⟩], [], []⟩ 0 ∧
      (⟨"", "c1", "m1", ""⟩ : ChatResponse).Message = "" ∧
      AskGo.parseResponse true ["head", spacePartLine] =
        .ok ⟨[], [⟨"", "c1", "m1", ""⟩], [" "]⟩ 1 := by
  refine ⟨by decide, rfl, by decide⟩

lemma stOf_closeStep (cfg : ScanCfg) (live : Bool) (st : ScanState) :
    stOf (closeStep cfg live st) = st := by
  unfold closeStep
  split_ifs <;> rfl

lemma scanLoop_sentRaws_all (cfg : ScanCfg) (live : Bool) (lines : List String) :
    ∀ st : ScanState, st.sentRaws.all (fun r => r != "") = true →
      (stOf (scanLoop cfg live lines st)).sentRaws.all (fun r => r != "") = true := by
  induction lines with
  | nil =>
      intro st h
      simpa [scanLoop, stOf_closeStep] using h
  | cons line rest ih =>
      intro st h
      cases hp : processLine cfg line with
      | skipLine => simpa [scanLoop, hp] using ih st h
      | warnUnsupported t => simpa [scanLoop, hp] using ih st h
      | detailErr m => simpa [scanLoop, hp, stOf] using h
      | doneSentinel => simpa [scanLoop, hp, stOf_closeStep] using h
      | crashTypeAssert => simpa [scanLoop, hp, stOf] using h
      | frame raw resp =>
          by_cases hb : (live && raw != "") = true
          · have hraw : (raw != "") = true := by
              rw [Bool.and_eq_true] at hb
              exact hb.2
            have h2 : ({ st with sent := st.sent ++ [resp], sentRaws := st.sentRaws ++ [raw] } : ScanState).sentRaws.all (fun r => r != "") = true := by
              simp only [List.all_append]
              simp [h, hraw]
            simpa [scanLoop, hp, hb] using
              ih { st with sent := st.sent ++ [resp], sentRaws := st.sentRaws ++ [raw] } h2
          · simpa [scanLoop, hp, hb] using
              ih { st with messages := st.messages ++ [resp] } (by simpa using h)

lemma parseResponse_sentRaws_all (cfg : ScanCfg) (live : Bool) (lines : List String) :
    (stOf (parseResponseCore cfg live lines)).sentRaws.all (fun r => r != "") = true := by
  cases lines with
  | nil => exact scanLoop_sentRaws_all cfg live [] ⟨[], [], []⟩ rfl
  | cons first rest =>
      by_cases hc : goContains first cfg.detailLit = true
      · simp [parseResponseCore, hc, stOf]
      · simpa [parseResponseCore, startScanCore, hc] using
          scanLoop_sentRaws_all cfg live rest ⟨[], [], []⟩ rfl

/-- C10 amended: in live mode a frame is sent on the delivery channel only
when its raw, pre-trimming part text is non-empty — no frame whose raw text is
empty is ever sent, in either revision (buffered mode, by contrast, appends
every well-shaped frame, and trimming can still deliver an empty displayed
text, as the counterexample shows). -/
theorem live_send_requires_nonempty_raw_text (lines : List String) :
    (stOf (AskGo.parseResponse true lines)).sentRaws.all (fun r => r != "") = true ∧
      (stOf (AskV0.parseResponse true lines)).sentRaws.all (fun r => r != "") = true :=
  ⟨parseResponse_sentRaws_all askGoCfg true lines, parseResponse_sentRaws_all askV0Cfg true lines⟩

end ChatGPT
